import Mathlib

/-!
Verification of the TaskRunner marketplace delivery workflow.

The development shallowly embeds the data model and the operations of the
delivery workflow: the deliveries screen (acceptDelivery, updateDeliveryStatus,
updateDriverAvailability, renderDeliveryItem gating), the service booking flow
(handleBookService), and the offline action queue (processQueue).  Timestamps
are modelled as natural numbers, jsonb payloads and uuids as strings, and
coordinates as integers.
-/

namespace TaskRunner

/-- Status values of the deliveries table, as constrained by the schema CHECK
clause on the status column. -/
inductive DeliveryStatus where
  | pending
  | assigned
  | picked_up
  | in_transit
  | delivered
  | cancelled
deriving DecidableEq, Repr

/-- Immediate successor in the fixed delivery status sequence; the two terminal
states have none. -/
def DeliveryStatus.next : DeliveryStatus → Option DeliveryStatus
  | .pending => some .assigned
  | .assigned => some .picked_up
  | .picked_up => some .in_transit
  | .in_transit => some .delivered
  | .delivered => none
  | .cancelled => none

/-- Row of the deliveries table, with the columns the deliveries screen reads
and writes. -/
structure Delivery where
  id : String
  service_request_id : String
  driver_id : Option String
  pickup_location : String
  delivery_location : String
  status : DeliveryStatus
  estimated_delivery_time : Option Nat
  actual_delivery_time : Option Nat
  delivery_fee : Option Int
  distance_km : Option Int
  driver_notes : Option String
deriving DecidableEq, Repr

/-- Fields written by the acceptDelivery update, applied to one row: the driver
reference and the status, nothing else. -/
def acceptDeliveryUpdate (uid : String) (d : Delivery) : Delivery :=
  { d with driver_id := some uid, status := DeliveryStatus.assigned }

/-- Backend write issued by acceptDelivery on the deliveries screen: an update
of driver_id and status filtered only on the row id, so a matching row is
overwritten whatever its current driver or status. -/
def acceptDelivery (db : List Delivery) (deliveryId uid : String) : List Delivery :=
  db.map fun d => if d.id = deliveryId then acceptDeliveryUpdate uid d else d

/-- Update payload built by updateDeliveryStatus: the requested status, plus
actual_delivery_time set to the current time exactly when the requested status
is delivered. -/
structure DeliveryUpdatePayload where
  status : DeliveryStatus
  actual_delivery_time : Option Nat
deriving DecidableEq, Repr

/-- Payload construction in updateDeliveryStatus: updateData holds the status,
and actual_delivery_time is added only in the delivered branch. -/
def statusUpdatePayload (status : DeliveryStatus) (now : Nat) : DeliveryUpdatePayload :=
  { status := status
    actual_delivery_time := if status = DeliveryStatus.delivered then some now else none }

/-- Application of an update payload to a row: only the fields present in the
payload are written, the rest of the row is untouched. -/
def applyDeliveryUpdate (p : DeliveryUpdatePayload) (d : Delivery) : Delivery :=
  { d with
    status := p.status
    actual_delivery_time :=
      match p.actual_delivery_time with
      | some t => some t
      | none => d.actual_delivery_time }

/-- Backend write issued by updateDeliveryStatus: the payload is applied to the
rows matching the id filter; the handler never inspects the current status. -/
def updateDeliveryStatus (db : List Delivery) (deliveryId : String)
    (status : DeliveryStatus) (now : Nat) : List Delivery :=
  db.map fun d =>
    if d.id = deliveryId then applyDeliveryUpdate (statusUpdatePayload status now) d else d

/-- Gate of the Accept button in renderDeliveryItem: the row has no driver, its
status is pending, and the viewing driver has toggled availability on. -/
def canAccept (item : Delivery) (isAvailable : Bool) : Bool :=
  item.driver_id.isNone && decide (item.status = DeliveryStatus.pending) && isAvailable

/-- Test used by renderDeliveryItem for the advance buttons: the row's driver
reference equals the viewing driver. -/
def isMyDelivery (item : Delivery) (uid : String) : Bool :=
  decide (item.driver_id = some uid)

/-- Status-changing buttons the deliveries screen can render on a card. -/
inductive UIAction where
  | accept
  | markPickedUp
  | markInTransit
  | markDelivered
deriving DecidableEq, Repr

/-- Status each button requests (accept also sets the driver reference). -/
def UIAction.targetStatus : UIAction → DeliveryStatus
  | .accept => DeliveryStatus.assigned
  | .markPickedUp => DeliveryStatus.picked_up
  | .markInTransit => DeliveryStatus.in_transit
  | .markDelivered => DeliveryStatus.delivered

/-- Buttons rendered by renderDeliveryItem for a card, given the viewing driver
and the local availability flag, following the four conditionals of the
source. -/
def offeredActions (item : Delivery) (uid : String) (isAvailable : Bool) : List UIAction :=
  (if canAccept item isAvailable then [UIAction.accept] else []) ++
  (if isMyDelivery item uid && decide (item.status = DeliveryStatus.assigned) then
    [UIAction.markPickedUp] else []) ++
  (if isMyDelivery item uid && decide (item.status = DeliveryStatus.picked_up) then
    [UIAction.markInTransit] else []) ++
  (if isMyDelivery item uid && decide (item.status = DeliveryStatus.in_transit) then
    [UIAction.markDelivered] else [])

/-- Concrete pending, unassigned delivery. -/
def pendingDelivery : Delivery :=
  { id := "del1", service_request_id := "sr1", driver_id := none,
    pickup_location := "A", delivery_location := "B",
    status := DeliveryStatus.pending, estimated_delivery_time := none,
    actual_delivery_time := none, delivery_fee := none, distance_km := none,
    driver_notes := none }

/-- Concrete delivery already assigned to driver d1. -/
def assignedDelivery : Delivery :=
  { pendingDelivery with status := DeliveryStatus.assigned, driver_id := some "d1" }

/-- C1: a pending delivery with no driver, accepted by an available driver,
transitions to status assigned with that driver reference; and the Accept
action is offered exactly when the row is pending with no driver and the
viewing driver has signaled availability. -/
theorem acceptDelivery_pending_to_assigned
    (db : List Delivery) (deliveryId uid : String) (d : Delivery)
    (hmem : d ∈ db) (hid : d.id = deliveryId)
    (hpend : d.status = DeliveryStatus.pending) (hdrv : d.driver_id = none)
    (avail : Bool) (havail : avail = true) :
    acceptDeliveryUpdate uid d ∈ acceptDelivery db deliveryId uid ∧
    (acceptDeliveryUpdate uid d).status = DeliveryStatus.assigned ∧
    (acceptDeliveryUpdate uid d).driver_id = some uid ∧
    (∀ (item : Delivery) (av : Bool),
      canAccept item av = true ↔
        item.driver_id = none ∧ item.status = DeliveryStatus.pending ∧ av = true) := by
  refine ⟨?_, rfl, rfl, ?_⟩
  · unfold acceptDelivery
    have h1 := List.mem_map_of_mem
      (fun e : Delivery => if e.id = deliveryId then acceptDeliveryUpdate uid e else e) hmem
    simpa [hid] using h1
  · intro item av
    simp [canAccept, Bool.and_eq_true, decide_eq_true_eq,
      Option.isNone_iff_eq_none, and_assoc]

/-- Witness for C1 at a concrete pending delivery. -/
theorem acceptDelivery_pending_to_assigned_witness :
    acceptDeliveryUpdate "driver1" pendingDelivery ∈
      acceptDelivery [pendingDelivery] "del1" "driver1" ∧
    (acceptDeliveryUpdate "driver1" pendingDelivery).status = DeliveryStatus.assigned ∧
    (acceptDeliveryUpdate "driver1" pendingDelivery).driver_id = some "driver1" ∧
    (∀ (item : Delivery) (av : Bool),
      canAccept item av = true ↔
        item.driver_id = none ∧ item.status = DeliveryStatus.pending ∧ av = true) :=
  acceptDelivery_pending_to_assigned [pendingDelivery] "del1" "driver1" pendingDelivery
    (by simp) rfl rfl rfl true rfl

/-- C2: the accept write is an unconditional last-write-wins update filtered
only on the delivery id: a matching row is set to driver uid2 and status
assigned whatever its current state, including a row already carrying another
driver, while rows with a different id are untouched. -/
theorem acceptDelivery_lastWriteWins
    (db : List Delivery) (deliveryId uid2 : String) (d : Delivery)
    (hmem : d ∈ db) (hid : d.id = deliveryId) :
    acceptDeliveryUpdate uid2 d ∈ acceptDelivery db deliveryId uid2 ∧
    (∀ e : Delivery, (acceptDeliveryUpdate uid2 e).driver_id = some uid2 ∧
      (acceptDeliveryUpdate uid2 e).status = DeliveryStatus.assigned) ∧
    (∀ e ∈ db, e.id ≠ deliveryId → e ∈ acceptDelivery db deliveryId uid2) ∧
    (∀ uid1 : String, d.driver_id = some uid1 →
      (acceptDeliveryUpdate uid2 d).driver_id = some uid2) := by
  refine ⟨?_, fun e => ⟨rfl, rfl⟩, ?_, fun uid1 _ => rfl⟩
  · unfold acceptDelivery
    have h1 := List.mem_map_of_mem
      (fun e : Delivery => if e.id = deliveryId then acceptDeliveryUpdate uid2 e else e) hmem
    simpa [hid] using h1
  · intro e he hne
    unfold acceptDelivery
    have h1 := List.mem_map_of_mem
      (fun x : Delivery => if x.id = deliveryId then acceptDeliveryUpdate uid2 x else x) he
    simpa [hne] using h1

/-- Witness for C2 at a delivery already assigned to driver d1, claimed by
driver d2. -/
theorem acceptDelivery_lastWriteWins_witness :
    acceptDeliveryUpdate "d2" assignedDelivery ∈
      acceptDelivery [assignedDelivery] "del1" "d2" ∧
    (∀ e : Delivery, (acceptDeliveryUpdate "d2" e).driver_id = some "d2" ∧
      (acceptDeliveryUpdate "d2" e).status = DeliveryStatus.assigned) ∧
    (∀ e ∈ [assignedDelivery], e.id ≠ "del1" →
      e ∈ acceptDelivery [assignedDelivery] "del1" "d2") ∧
    (∀ uid1 : String, assignedDelivery.driver_id = some uid1 →
      (acceptDeliveryUpdate "d2" assignedDelivery).driver_id = some "d2") :=
  acceptDelivery_lastWriteWins [assignedDelivery] "del1" "d2" assignedDelivery
    (by simp) rfl

/-- C4: the status update writes the requested status; the payload carries a
completion timestamp exactly when the requested status is delivered, stamping
actual_delivery_time with the current time in that case and leaving it alone
otherwise; and no other field of the row changes. -/
theorem updateDeliveryStatus_payload_and_frame
    (d : Delivery) (s : DeliveryStatus) (now : Nat) :
    (statusUpdatePayload s now).status = s ∧
    (statusUpdatePayload s now).actual_delivery_time
      = (if s = DeliveryStatus.delivered then some now else none) ∧
    (applyDeliveryUpdate (statusUpdatePayload s now) d).status = s ∧
    (applyDeliveryUpdate (statusUpdatePayload s now) d).actual_delivery_time
      = (if s = DeliveryStatus.delivered then some now else d.actual_delivery_time) ∧
    (applyDeliveryUpdate (statusUpdatePayload s now) d).id = d.id ∧
    (applyDeliveryUpdate (statusUpdatePayload s now) d).service_request_id
      = d.service_request_id ∧
    (applyDeliveryUpdate (statusUpdatePayload s now) d).driver_id = d.driver_id ∧
    (applyDeliveryUpdate (statusUpdatePayload s now) d).pickup_location
      = d.pickup_location ∧
    (applyDeliveryUpdate (statusUpdatePayload s now) d).delivery_location
      = d.delivery_location ∧
    (applyDeliveryUpdate (statusUpdatePayload s now) d).estimated_delivery_time
      = d.estimated_delivery_time ∧
    (applyDeliveryUpdate (statusUpdatePayload s now) d).delivery_fee = d.delivery_fee ∧
    (applyDeliveryUpdate (statusUpdatePayload s now) d).distance_km = d.distance_km ∧
    (applyDeliveryUpdate (statusUpdatePayload s now) d).driver_notes = d.driver_notes := by
  refine ⟨rfl, rfl, rfl, ?_, rfl, rfl, rfl, rfl, rfl, rfl, rfl, rfl, rfl⟩
  by_cases h : s = DeliveryStatus.delivered <;>
    simp [applyDeliveryUpdate, statusUpdatePayload, h]

/-- Membership in a conditional singleton produced by the rendering
conditionals. -/
theorem mem_ite_singleton {α : Type} {c : Bool} {x a : α} :
    a ∈ (if c then [x] else []) ↔ c = true ∧ a = x := by
  cases c <;> simp

/-- C3 counterexample: the Accept button is a status-changing action that is
offered to a driver who is not the assigned driver, since it is rendered
precisely when the row has no driver at all. -/
theorem offeredActions_accept_not_assigned_driver :
    UIAction.accept ∈ offeredActions pendingDelivery "driver1" true ∧
    pendingDelivery.driver_id ≠ some "driver1" := by decide

/-- C3 amended: every status-changing action offered by the card advances the
status exactly one step in the fixed sequence; the three advance buttons are
offered only to the assigned driver, while Accept is offered to an available
viewer exactly when the row is pending with no driver assigned; nothing is
offered at delivered or cancelled; and the status-update handler writes any
requested status without validating it against the current one, so skipping is
prevented only by this gating. -/
theorem offeredActions_one_step
    (item : Delivery) (uid : String) (avail : Bool) (a : UIAction)
    (ha : a ∈ offeredActions item uid avail) :
    item.status.next = some a.targetStatus ∧
    (a ≠ UIAction.accept → item.driver_id = some uid) ∧
    (a = UIAction.accept →
      item.driver_id = none ∧ item.status = DeliveryStatus.pending ∧ avail = true) ∧
    item.status ≠ DeliveryStatus.delivered ∧
    item.status ≠ DeliveryStatus.cancelled ∧
    (∀ (d : Delivery) (s : DeliveryStatus) (now : Nat),
      (applyDeliveryUpdate (statusUpdatePayload s now) d).status = s) := by
  rw [offeredActions] at ha
  simp only [List.mem_append, mem_ite_singleton] at ha
  rcases ha with ((⟨hc, rfl⟩ | ⟨hc, rfl⟩) | ⟨hc, rfl⟩) | ⟨hc, rfl⟩
  · simp only [canAccept, Bool.and_eq_true, decide_eq_true_eq,
      Option.isNone_iff_eq_none] at hc
    obtain ⟨⟨hdrv, hst⟩, hav⟩ := hc
    refine ⟨?_, fun h => absurd rfl h, fun _ => ⟨hdrv, hst, hav⟩, ?_, ?_, fun d s now => rfl⟩
    · simp [hst, DeliveryStatus.next, UIAction.targetStatus]
    · rw [hst]; decide
    · rw [hst]; decide
  · simp only [isMyDelivery, Bool.and_eq_true, decide_eq_true_eq] at hc
    obtain ⟨hdrv, hst⟩ := hc
    refine ⟨?_, fun _ => hdrv, fun h => absurd h (by decide), ?_, ?_, fun d s now => rfl⟩
    · simp [hst, DeliveryStatus.next, UIAction.targetStatus]
    · rw [hst]; decide
    · rw [hst]; decide
  · simp only [isMyDelivery, Bool.and_eq_true, decide_eq_true_eq] at hc
    obtain ⟨hdrv, hst⟩ := hc
    refine ⟨?_, fun _ => hdrv, fun h => absurd h (by decide), ?_, ?_, fun d s now => rfl⟩
    · simp [hst, DeliveryStatus.next, UIAction.targetStatus]
    · rw [hst]; decide
    · rw [hst]; decide
  · simp only [isMyDelivery, Bool.and_eq_true, decide_eq_true_eq] at hc
    obtain ⟨hdrv, hst⟩ := hc
    refine ⟨?_, fun _ => hdrv, fun h => absurd h (by decide), ?_, ?_, fun d s now => rfl⟩
    · simp [hst, DeliveryStatus.next, UIAction.targetStatus]
    · rw [hst]; decide
    · rw [hst]; decide

/-- Witness for the amended C3 at the Accept action on a concrete pending
delivery. -/
theorem offeredActions_one_step_witness :
    pendingDelivery.status.next = some (UIAction.targetStatus UIAction.accept) ∧
    (UIAction.accept ≠ UIAction.accept → pendingDelivery.driver_id = some "driver1") ∧
    (UIAction.accept = UIAction.accept →
      pendingDelivery.driver_id = none ∧
      pendingDelivery.status = DeliveryStatus.pending ∧ true = true) ∧
    pendingDelivery.status ≠ DeliveryStatus.delivered ∧
    pendingDelivery.status ≠ DeliveryStatus.cancelled ∧
    (∀ (d : Delivery) (s : DeliveryStatus) (now : Nat),
      (applyDeliveryUpdate (statusUpdatePayload s now) d).status = s) :=
  offeredActions_one_step pendingDelivery "driver1" true UIAction.accept (by decide)

/-- Service row fields read by the booking flow. -/
structure Service where
  id : String
  merchant_id : String
  title : String
  price : Option Int
  requires_delivery : Bool
deriving DecidableEq, Repr

/-- Insert payload sent to service_requests by handleBookService. -/
structure ServiceRequestInsert where
  client_id : String
  merchant_id : String
  service_id : String
  description : String
  price_quoted : Option Int
deriving DecidableEq, Repr

/-- Insert payload a delivery-creating write would carry. -/
structure DeliveryInsert where
  service_request_id : String
deriving DecidableEq, Repr

/-- Backend writes the booking flow could issue. -/
inductive BookingWrite where
  | serviceRequest (r : ServiceRequestInsert)
  | delivery (d : DeliveryInsert)
deriving DecidableEq, Repr

/-- Test for a write that creates a deliveries row. -/
def BookingWrite.isDeliveryInsert : BookingWrite → Bool
  | .delivery _ => true
  | .serviceRequest _ => false

/-- Sequence of backend writes issued by handleBookService on the service
detail screen: after the client-role gate, it performs a single insert into
service_requests built from the service row, and nothing else. -/
def handleBookService (role : String) (uid : String) (svc : Service) :
    List BookingWrite :=
  if role = "client" then
    [BookingWrite.serviceRequest
      { client_id := uid, merchant_id := svc.merchant_id, service_id := svc.id,
        description := "Request for: " ++ svc.title, price_quoted := svc.price }]
  else []

/-- Concrete service that requires delivery. -/
def deliveryService : Service :=
  { id := "svc1", merchant_id := "m1", title := "Grocery run", price := some 30,
    requires_delivery := true }

/-- C5 counterexample: booking a service with requires_delivery set issues no
write that creates a deliveries row, so no Delivery record follows the
ServiceRequest insert. -/
theorem handleBookService_no_delivery_write :
    deliveryService.requires_delivery = true ∧
    ∀ w ∈ handleBookService "client" "c1" deliveryService,
      w.isDeliveryInsert = false := by decide

/-- C5 amended: a booking by a client performs exactly one backend write, the
service_requests insert built from the service row; no deliveries row is
created, even when the booked service has requires_delivery set. -/
theorem handleBookService_single_write
    (role uid : String) (svc : Service) (hrole : role = "client") :
    handleBookService role uid svc =
      [BookingWrite.serviceRequest
        { client_id := uid, merchant_id := svc.merchant_id, service_id := svc.id,
          description := "Request for: " ++ svc.title, price_quoted := svc.price }] ∧
    (handleBookService role uid svc).length = 1 ∧
    ∀ w ∈ handleBookService role uid svc, w.isDeliveryInsert = false := by
  subst hrole
  refine ⟨by simp [handleBookService], by simp [handleBookService], ?_⟩
  intro w hw
  simp [handleBookService] at hw
  subst hw
  rfl

/-- Witness for the amended C5 at a concrete delivery-requiring service. -/
theorem handleBookService_single_write_witness :
    handleBookService "client" "c1" deliveryService =
      [BookingWrite.serviceRequest
        { client_id := "c1", merchant_id := deliveryService.merchant_id,
          service_id := deliveryService.id,
          description := "Request for: " ++ deliveryService.title,
          price_quoted := deliveryService.price }] ∧
    (handleBookService "client" "c1" deliveryService).length = 1 ∧
    (∀ w ∈ handleBookService "client" "c1" deliveryService,
      w.isDeliveryInsert = false) :=
  handleBookService_single_write "client" "c1" deliveryService rfl

/-- Stored row of service_requests; the generated primary key is the only
uniqueness constraint the schema places on the table. -/
structure ServiceRequestRow where
  id : String
  client_id : String
  merchant_id : String
  service_id : String
deriving DecidableEq, Repr

/-- Backend insert into service_requests: an unconditional append of a new row
under a fresh primary key; the client sends no idempotency key and the schema
has no other uniqueness constraint, so nothing deduplicates repeated
payloads. -/
def insertServiceRequest (db : List ServiceRequestRow) (freshId : String)
    (r : ServiceRequestInsert) : List ServiceRequestRow :=
  db ++ [{ id := freshId, client_id := r.client_id, merchant_id := r.merchant_id,
           service_id := r.service_id }]

/-- Insert payload produced by booking deliveryService as client c1. -/
def bookingPayload : ServiceRequestInsert :=
  { client_id := "c1", merchant_id := deliveryService.merchant_id,
    service_id := deliveryService.id,
    description := "Request for: " ++ deliveryService.title,
    price_quoted := deliveryService.price }

/-- C9: the booking operation carries no idempotency key, and running its
insert twice with the identical payload produces two distinct service_requests
rows for the same client and service. -/
theorem duplicate_service_request_possible :
    handleBookService "client" "c1" deliveryService
      = [BookingWrite.serviceRequest bookingPayload] ∧
    insertServiceRequest (insertServiceRequest [] "r1" bookingPayload) "r2"
        bookingPayload
      = [{ id := "r1", client_id := "c1", merchant_id := "m1", service_id := "svc1" },
         { id := "r2", client_id := "c1", merchant_id := "m1", service_id := "svc1" }] ∧
    ({ id := "r1", client_id := "c1", merchant_id := "m1", service_id := "svc1" }
        : ServiceRequestRow)
      ≠ { id := "r2", client_id := "c1", merchant_id := "m1", service_id := "svc1" } := by
  refine ⟨by decide, by decide, by decide⟩

/-- Queued offline action, with the persisted fields relevant to retry
accounting. -/
structure QueuedAction where
  id : String
  type : String
  retryCount : Nat
deriving DecidableEq, Repr

/-- Retry limit of the offline queue. -/
def MAX_RETRY_COUNT : Nat := 3

/-- Effect of one processQueue iteration on one queued action, given whether
its execution succeeds: success removes it from the queue; failure increments
retryCount and removes the action once retryCount reaches MAX_RETRY_COUNT. -/
def processAction (exec : QueuedAction → Bool) (a : QueuedAction) :
    Option QueuedAction :=
  if exec a then none
  else if MAX_RETRY_COUNT ≤ a.retryCount + 1 then none
  else some { a with retryCount := a.retryCount + 1 }

/-- One processQueue run together with the user-facing alerts it raises: the
loop attempts every action in the snapshot, keeps exactly the failed actions
still under the retry limit, and its catch branch only writes to the console,
so no alert is ever surfaced. -/
def processQueueEffect (exec : QueuedAction → Bool) (q : List QueuedAction) :
    List QueuedAction × List String :=
  (q.filterMap (processAction exec), [])

/-- Queue left behind by one processQueue run. -/
def processQueue (exec : QueuedAction → Bool) (q : List QueuedAction) :
    List QueuedAction :=
  (processQueueEffect exec q).1

/-- Ids attempted during one run: the loop executes every action it finds in
the queue snapshot. -/
def executedIds (q : List QueuedAction) : List String :=
  q.map fun a => a.id

/-- Lifecycle of one queued action across successive processing runs, as an
optional retryCount: a run outcome of true means the execution fails; success
or a third failure removes the action. -/
def stepAction (fail : Bool) : Option Nat → Option Nat
  | none => none
  | some c =>
    if fail then
      if MAX_RETRY_COUNT ≤ c + 1 then none else some (c + 1)
    else none

/-- Number of executions of the action over a sequence of run outcomes. -/
def execCount : List Bool → Option Nat → Nat
  | [], _ => 0
  | _ :: _, none => 0
  | f :: fs, some c => 1 + execCount fs (stepAction f (some c))

/-- Result of the single backend update attempted by acceptDelivery, as seen by
the user: exactly one remote call per invocation, and one alert in every
outcome (a generic failure alert when the request fails). -/
structure OpEffect where
  db : List Delivery
  alerts : List String
  remoteCalls : Nat
deriving DecidableEq, Repr

/-- Outcome-level effect of one acceptDelivery invocation: a single update call
is issued; on failure the screen raises one generic alert and the database is
unchanged; nothing is re-attempted. -/
def acceptDeliveryEffect (db : List Delivery) (deliveryId uid : String)
    (requestFails : Bool) : OpEffect :=
  if requestFails then
    { db := db, alerts := ["Failed to accept delivery"], remoteCalls := 1 }
  else
    { db := acceptDelivery db deliveryId uid, alerts := ["Delivery accepted!"],
      remoteCalls := 1 }

/-- Fresh queued action used in the offline-queue counterexamples. -/
def queuedMessage : QueuedAction :=
  { id := "a1", type := "SEND_MESSAGE", retryCount := 0 }

/-- C6 counterexample: a queued action whose first execution fails stays in the
persisted queue, and the next automatic processing run executes it again, so
the program does retry a failed call without the user repeating it. -/
theorem offline_queue_auto_retry :
    executedIds [queuedMessage] = ["a1"] ∧
    processQueue (fun _ => false) [queuedMessage] ≠ [] ∧
    "a1" ∈ executedIds (processQueue (fun _ => false) [queuedMessage]) := by decide

/-- C6 amended: an operation wired to a screen issues exactly one remote call
per invocation and surfaces a generic alert on failure, with no automatic
retry; the offline queue module, however, keeps a failed action under the
retry limit and re-executes it on the next automatic processing run, raising
no alert. -/
theorem single_call_except_offline_queue
    (db : List Delivery) (deliveryId uid : String) (requestFails : Bool)
    (exec : QueuedAction → Bool) (a : QueuedAction)
    (hfail : exec a = false) (hunder : a.retryCount + 1 < MAX_RETRY_COUNT) :
    (acceptDeliveryEffect db deliveryId uid requestFails).remoteCalls = 1 ∧
    (requestFails = true →
      (acceptDeliveryEffect db deliveryId uid requestFails).alerts
        = ["Failed to accept delivery"]) ∧
    processQueue exec [a] = [{ a with retryCount := a.retryCount + 1 }] ∧
    a.id ∈ executedIds (processQueue exec [a]) ∧
    (processQueueEffect exec [a]).2 = [] := by
  have hnot : ¬ MAX_RETRY_COUNT ≤ a.retryCount + 1 := Nat.not_le.mpr hunder
  refine ⟨?_, ?_, ?_, ?_, rfl⟩
  · by_cases h : requestFails = true <;> simp [acceptDeliveryEffect, h]
  · intro h
    simp [acceptDeliveryEffect, h]
  · simp [processQueue, processQueueEffect, processAction, hfail, hnot]
  · simp [processQueue, processQueueEffect, processAction, hfail, hnot, executedIds]

/-- Witness for the amended C6 at a concrete failing request and a concrete
fresh queued action. -/
theorem single_call_except_offline_queue_witness :
    (acceptDeliveryEffect [] "del1" "d1" true).remoteCalls = 1 ∧
    (true = true →
      (acceptDeliveryEffect [] "del1" "d1" true).alerts
        = ["Failed to accept delivery"]) ∧
    processQueue (fun _ => false) [queuedMessage]
      = [{ queuedMessage with retryCount := queuedMessage.retryCount + 1 }] ∧
    queuedMessage.id ∈ executedIds (processQueue (fun _ => false) [queuedMessage]) ∧
    (processQueueEffect (fun _ => false) [queuedMessage]).2 = [] :=
  single_call_except_offline_queue [] "del1" "d1" true (fun _ => false)
    queuedMessage rfl (by decide)

/-- Bound on the executions of one action under the retry limit: starting below
the limit, the number of executions never exceeds the remaining budget. -/
theorem execCount_le (fails : List Bool) :
    ∀ c : Nat, c < MAX_RETRY_COUNT →
      execCount fails (some c) ≤ MAX_RETRY_COUNT - c := by
  induction fails with
  | nil =>
    intro c _
    simp [execCount]
  | cons f fs ih =>
    intro c hc
    have hz : execCount fs none = 0 := by cases fs <;> rfl
    cases f with
    | false =>
      have hstep : stepAction false (some c) = none := rfl
      rw [execCount, hstep, hz]
      simp only [MAX_RETRY_COUNT] at hc ⊢
      omega
    | true =>
      by_cases h : MAX_RETRY_COUNT ≤ c + 1
      · have hstep : stepAction true (some c) = none := by
          simp [stepAction, h]
        rw [execCount, hstep, hz]
        simp only [MAX_RETRY_COUNT] at hc ⊢
        omega
      · have hstep : stepAction true (some c) = some (c + 1) := by
          simp [stepAction, h]
        rw [execCount, hstep]
        have hrec := ih (c + 1) (Nat.lt_of_not_ge h)
        simp only [MAX_RETRY_COUNT] at hc hrec ⊢
        omega

/-- C10: an action entering the queue with retryCount zero is executed at most
MAX_RETRY_COUNT times over all processing runs; once removed it is never
executed again; a failing third attempt removes it; after any completed run
every remaining queued action has retryCount strictly below MAX_RETRY_COUNT;
and a processing run surfaces no alert to the user. -/
theorem offline_queue_retry_bound :
    (∀ fails : List Bool, execCount fails (some 0) ≤ MAX_RETRY_COUNT) ∧
    (∀ fails : List Bool, execCount fails none = 0) ∧
    stepAction true (some 2) = none ∧
    (∀ (exec : QueuedAction → Bool) (q : List QueuedAction) (a : QueuedAction),
      a ∈ processQueue exec q → a.retryCount < MAX_RETRY_COUNT) ∧
    (∀ (exec : QueuedAction → Bool) (q : List QueuedAction),
      (processQueueEffect exec q).2 = []) := by
  refine ⟨?_, ?_, by decide, ?_, fun exec q => rfl⟩
  · intro fails
    simpa using execCount_le fails 0 (by decide)
  · intro fails
    cases fails <;> rfl
  · intro exec q a ha
    simp only [processQueue, processQueueEffect, List.mem_filterMap] at ha
    obtain ⟨b, _, hpb⟩ := ha
    unfold processAction at hpb
    cases hexec : exec b with
    | true => simp [hexec] at hpb
    | false =>
      by_cases h2 : MAX_RETRY_COUNT ≤ b.retryCount + 1
      · simp [hexec, h2] at hpb
      · simp [hexec, h2] at hpb
        have : a.retryCount = b.retryCount + 1 := by
          rw [← hpb]
        omega

/-- Witness for C10 at a concrete sequence of failing runs and a concrete
queued action. -/
theorem offline_queue_retry_bound_witness :
    execCount [true, true, true, true] (some 0) ≤ MAX_RETRY_COUNT ∧
    execCount [true, true] none = 0 ∧
    ({ id := "a1", type := "SEND_MESSAGE", retryCount := 1 }
        : QueuedAction).retryCount < MAX_RETRY_COUNT ∧
    (processQueueEffect (fun _ => false) [queuedMessage]).2 = [] :=
  ⟨offline_queue_retry_bound.1 [true, true, true, true],
   offline_queue_retry_bound.2.1 [true, true],
   offline_queue_retry_bound.2.2.2.1 (fun _ => false) [queuedMessage]
     { id := "a1", type := "SEND_MESSAGE", retryCount := 1 } (by decide),
   offline_queue_retry_bound.2.2.2.2 (fun _ => false) [queuedMessage]⟩

/-- Upsert payload sent by updateDriverAvailability; when going unavailable the
location object stays null, so latitude and longitude are absent from the
payload. -/
structure DriverLocationPayload where
  driver_id : String
  latitude : Option Int
  longitude : Option Int
  is_available : Bool
deriving DecidableEq, Repr

/-- Payload built by updateDriverAvailability: the device location is sampled
only when going available; otherwise the location object stays null and its
fields are omitted from the payload. -/
def availabilityPayload (uid : String) (available : Bool) (lat lon : Int) :
    DriverLocationPayload :=
  let location : Option (Int × Int) := if available then some (lat, lon) else none
  { driver_id := uid
    latitude := location.map Prod.fst
    longitude := location.map Prod.snd
    is_available := available }

/-- Stored row of driver_locations: a generated primary key id and a unique
driver_id, per the schema. -/
structure DriverLocationRow where
  id : Nat
  driver_id : String
  latitude : Option Int
  longitude : Option Int
  is_available : Bool
deriving DecidableEq, Repr

/-- Error outcome of a rejected backend write. -/
inductive UpsertError where
  | uniqueViolation
deriving DecidableEq, Repr

/-- Backend effect of the upsert call in updateDriverAvailability.  The call
names no conflict target, so the upsert resolves duplicates on the primary key
id; the payload carries no id and the generated fresh id never collides, so
the primary-key conflict branch never fires and the statement behaves as an
insert, which the unique constraint on driver_id rejects whenever a row for
that driver already exists. -/
def upsertDriverLocation (table : List DriverLocationRow) (freshId : Nat)
    (p : DriverLocationPayload) : Except UpsertError (List DriverLocationRow) :=
  if table.any (fun r => decide (r.driver_id = p.driver_id)) then
    Except.error UpsertError.uniqueViolation
  else
    Except.ok (table ++
      [{ id := freshId, driver_id := p.driver_id, latitude := p.latitude,
         longitude := p.longitude, is_available := p.is_available }])

/-- Table state after the upsert call: a rejected write leaves the table
unchanged. -/
def upsertResultTable (table : List DriverLocationRow) (freshId : Nat)
    (p : DriverLocationPayload) : List DriverLocationRow :=
  match upsertDriverLocation table freshId p with
  | Except.ok t => t
  | Except.error _ => table

/-- Invariant of the driver_locations table: at most one row per driver. -/
def uniquePerDriver (t : List DriverLocationRow) : Prop :=
  t.Pairwise fun r s => r.driver_id ≠ s.driver_id

/-- Rows already stored survive the availability upsert untouched, whether the
write is accepted or rejected. -/
theorem mem_upsertResultTable (table : List DriverLocationRow) (freshId : Nat)
    (p : DriverLocationPayload) (r : DriverLocationRow) (hr : r ∈ table) :
    r ∈ upsertResultTable table freshId p := by
  unfold upsertResultTable upsertDriverLocation
  cases hc : table.any (fun s => decide (s.driver_id = p.driver_id)) with
  | true => simpa [hc] using hr
  | false =>
    simp only [hc, Bool.false_eq_true, if_false]
    exact List.mem_append_left _ hr

/-- C7: going unavailable sends is_available false with no latitude or
longitude in the payload, so every stored row, in particular the driver's
previously stored coordinates, survives the write unchanged; going available
sends the freshly sampled coordinates. -/
theorem updateDriverAvailability_location_frame (uid : String) (lat lon : Int) :
    (availabilityPayload uid false lat lon).is_available = false ∧
    (availabilityPayload uid false lat lon).latitude = none ∧
    (availabilityPayload uid false lat lon).longitude = none ∧
    (availabilityPayload uid true lat lon).is_available = true ∧
    (availabilityPayload uid true lat lon).latitude = some lat ∧
    (availabilityPayload uid true lat lon).longitude = some lon ∧
    ∀ (table : List DriverLocationRow) (freshId : Nat) (r : DriverLocationRow),
      r ∈ table →
      r ∈ upsertResultTable table freshId (availabilityPayload uid false lat lon) :=
  ⟨rfl, rfl, rfl, rfl, rfl, rfl,
   fun table freshId r hr => mem_upsertResultTable table freshId _ r hr⟩

/-- Concrete stored row of driver d1, online at known coordinates. -/
def onlineRow : DriverLocationRow :=
  { id := 1, driver_id := "d1", latitude := some 10, longitude := some 20,
    is_available := true }

/-- Witness for C7 at driver d1 going unavailable over a table holding the
stored row of d1. -/
theorem updateDriverAvailability_location_frame_witness :
    (availabilityPayload "d1" false 5 6).is_available = false ∧
    (availabilityPayload "d1" false 5 6).latitude = none ∧
    (availabilityPayload "d1" false 5 6).longitude = none ∧
    (availabilityPayload "d1" true 5 6).is_available = true ∧
    (availabilityPayload "d1" true 5 6).latitude = some 5 ∧
    (availabilityPayload "d1" true 5 6).longitude = some 6 ∧
    onlineRow ∈ upsertResultTable [onlineRow] 2 (availabilityPayload "d1" false 5 6) :=
  ⟨(updateDriverAvailability_location_frame "d1" 5 6).1,
   (updateDriverAvailability_location_frame "d1" 5 6).2.1,
   (updateDriverAvailability_location_frame "d1" 5 6).2.2.1,
   (updateDriverAvailability_location_frame "d1" 5 6).2.2.2.1,
   (updateDriverAvailability_location_frame "d1" 5 6).2.2.2.2.1,
   (updateDriverAvailability_location_frame "d1" 5 6).2.2.2.2.2.1,
   (updateDriverAvailability_location_frame "d1" 5 6).2.2.2.2.2.2
     [onlineRow] 2 onlineRow (by simp)⟩

/-- C8 counterexample: with a row for driver d1 already stored, the
availability upsert does not succeed: it is rejected by the unique driver_id
constraint, because its conflict target is the generated primary key, which
the payload never carries. -/
theorem upsert_fails_on_existing_row :
    upsertDriverLocation [onlineRow] 2 (availabilityPayload "d1" false 0 0)
      = Except.error UpsertError.uniqueViolation := by rfl

/-- C8 amended: the availability write keeps the table at one row per driver,
but not as the spec words it: when no row for the driver exists the write
inserts the driver's single row with the payload fields; when a row already
exists the write is rejected by the unique driver_id constraint and the table
is unchanged, rather than succeeding as an update of that row. -/
theorem upsertDriverLocation_invariant
    (table : List DriverLocationRow) (freshId : Nat) (p : DriverLocationPayload)
    (hinv : uniquePerDriver table) :
    (∀ t, upsertDriverLocation table freshId p = Except.ok t →
      uniquePerDriver t ∧
      ∃ r ∈ t, r.driver_id = p.driver_id ∧ r.is_available = p.is_available ∧
        r.latitude = p.latitude ∧ r.longitude = p.longitude) ∧
    ((∃ r ∈ table, r.driver_id = p.driver_id) →
      upsertDriverLocation table freshId p = Except.error UpsertError.uniqueViolation) ∧
    uniquePerDriver (upsertResultTable table freshId p) := by
  have hmain : ∀ t, upsertDriverLocation table freshId p = Except.ok t →
      uniquePerDriver t ∧
      ∃ r ∈ t, r.driver_id = p.driver_id ∧ r.is_available = p.is_available ∧
        r.latitude = p.latitude ∧ r.longitude = p.longitude := by
    intro t ht
    unfold upsertDriverLocation at ht
    cases hc : table.any (fun s => decide (s.driver_id = p.driver_id)) with
    | true => simp [hc] at ht
    | false =>
      simp only [hc, Bool.false_eq_true, if_false, Except.ok.injEq] at ht
      subst ht
      have hno : ∀ s ∈ table, s.driver_id ≠ p.driver_id := by
        intro s hs
        have := List.any_eq_false.mp hc s hs
        simpa using this
      constructor
      · unfold uniquePerDriver at hinv ⊢
        rw [List.pairwise_append]
        refine ⟨hinv, List.pairwise_singleton _ _, ?_⟩
        intro x hx y hy
        simp only [List.mem_singleton] at hy
        subst hy
        exact hno x hx
      · exact ⟨_, List.mem_append_right _ (List.mem_singleton_self _),
          rfl, rfl, rfl, rfl⟩
  refine ⟨hmain, ?_, ?_⟩
  · rintro ⟨r, hr, heq⟩
    unfold upsertDriverLocation
    have : table.any (fun s => decide (s.driver_id = p.driver_id)) = true :=
      List.any_eq_true.mpr ⟨r, hr, by simp [heq]⟩
    simp [this]
  · unfold upsertResultTable
    cases ht : upsertDriverLocation table freshId p with
    | error e => exact hinv
    | ok t => exact (hmain t ht).1

/-- Witness for the amended C8 at an empty table and at driver d1 going
available for the first time. -/
theorem upsertDriverLocation_invariant_witness :
    (∀ t, upsertDriverLocation [] 7 (availabilityPayload "d1" true 5 6)
        = Except.ok t →
      uniquePerDriver t ∧
      ∃ r ∈ t, r.driver_id = (availabilityPayload "d1" true 5 6).driver_id ∧
        r.is_available = (availabilityPayload "d1" true 5 6).is_available ∧
        r.latitude = (availabilityPayload "d1" true 5 6).latitude ∧
        r.longitude = (availabilityPayload "d1" true 5 6).longitude) ∧
    ((∃ r ∈ ([] : List DriverLocationRow),
        r.driver_id = (availabilityPayload "d1" true 5 6).driver_id) →
      upsertDriverLocation [] 7 (availabilityPayload "d1" true 5 6)
        = Except.error UpsertError.uniqueViolation) ∧
    uniquePerDriver (upsertResultTable [] 7 (availabilityPayload "d1" true 5 6)) :=
  upsertDriverLocation_invariant [] 7 (availabilityPayload "d1" true 5 6)
    List.Pairwise.nil

end TaskRunner
